import Mathlib

/-
Verification of the request authentication/authorization pipeline and the
User CRUD facade of the cursor-nest starter template backend.

The embedding models:
 * the Prisma-backed Session Store (tables users / sessions / accounts),
 * the Prisma client operations the backend invokes (findUnique, findMany
   with an isActive filter and createdAt-descending order, create, update),
   including the known request errors P2025 (record not found) and
   P2002 (unique constraint violation),
 * UsersService (create / findAll / findOne / update / soft remove),
 * AuthGuard.canActivate (session lookup via the Auth Provider, user lookup
   via the store, attach, and the catch-all that converts every failure into
   one uniform UnauthorizedException),
 * RawBodyMiddleware.use (conditional body parsing that skips auth routes),
 * the route table of AppController and UsersController with the presence
   of the UseGuards(AuthGuard) decorator per route.
-/

namespace Starter

/-- Message of the UnauthorizedException thrown by the guard's catch-all. -/
def msgAuthFailed : String := "Authentication failed"

/-- Message of the UnauthorizedException thrown when the resolver returns no
session. -/
def msgInvalidSession : String := "Invalid or expired session"

/-- Message of the UnauthorizedException thrown when the user row is missing
or inactive. -/
def msgUserInactive : String := "User not found or inactive"

/-- Path that marks a request as a Better Auth route (the global route
prefix is api, so auth routes live under /api/auth). -/
def authRoutePath : String := "/api/auth"

/-- Size cap passed to both structured body parsers. -/
def bodyLimit : String := "5mb"

/-- A row of the users table (prisma model User / user.entity). -/
structure User where
  id : String
  name : Option String
  email : String
  emailVerified : Bool
  isActive : Bool
  createdAt : Nat
  updatedAt : Nat
  image : Option String
deriving DecidableEq

/-- A row of the sessions table (prisma model Session). -/
structure SessionRow where
  id : String
  userId : String
  token : String
  expiresAt : Nat
deriving DecidableEq

/-- A row of the accounts table (prisma model Account). -/
structure AccountRow where
  id : String
  userId : String
  providerId : String
deriving DecidableEq

/-- The Session Store: the relational tables the backend touches. -/
structure Store where
  users : List User
  sessions : List SessionRow
  accounts : List AccountRow
deriving DecidableEq

/-- Known request errors the Prisma client raises to its caller:
P2025 (a required record was not found) on update of a missing row and
P2002 (unique constraint violation) on a duplicate unique column. -/
inductive StoreError where
  | recordNotFound
  | uniqueViolation
deriving DecidableEq

/-- Modelled from the spec: the error taxonomy of caller-visible failure
kinds (AuthenticationFailure 401, NotFound 404, Conflict 409,
ValidationFailure, UnexpectedStoreFailure). The repository contains no
exception filter or service-level catch that maps store errors into this
taxonomy; the type exists to compare what the service surfaces against
these kinds. -/
inductive FailureKind where
  | authenticationFailure
  | notFound
  | conflict
  | validationFailure
  | unexpectedStoreFailure
deriving DecidableEq

/-- An error surfaced by a UsersService operation to its caller: either a
store exception propagated unchanged (the only kind the code can produce,
since UsersService wraps no call in try/catch), or an HTTP failure kind. -/
inductive ServiceError where
  | store (e : StoreError)
  | http (k : FailureKind)
deriving DecidableEq

instance {ε : Type u} {α : Type v} [DecidableEq ε] [DecidableEq α] :
    DecidableEq (Except ε α)
  | Except.error e1, Except.error e2 =>
    if h : e1 = e2 then isTrue (congrArg Except.error h)
    else isFalse fun hh => h (Except.error.inj hh)
  | Except.error _, Except.ok _ => isFalse fun hh => Except.noConfusion hh
  | Except.ok _, Except.error _ => isFalse fun hh => Except.noConfusion hh
  | Except.ok a1, Except.ok a2 =>
    if h : a1 = a2 then isTrue (congrArg Except.ok h)
    else isFalse fun hh => h (Except.ok.inj hh)

/-- CreateUserDto: email required; name, emailVerified and isActive are
optional and accepted by validation. -/
structure CreateUserDto where
  name : Option String := none
  email : String
  emailVerified : Option Bool := none
  isActive : Option Bool := none
deriving DecidableEq

/-- UpdateUserDto: the partial form of CreateUserDto, every field optional. -/
structure UpdateUserDto where
  name : Option String := none
  email : Option String := none
  emailVerified : Option Bool := none
  isActive : Option Bool := none
deriving DecidableEq

/-- Effect of the prisma update data object built from an UpdateUserDto:
a field present in the dto is written, an absent field keeps its value. -/
def applyUpdate (dto : UpdateUserDto) (u : User) : User :=
  { u with
    name := match dto.name with | some n => some n | none => u.name,
    email := dto.email.getD u.email,
    emailVerified := dto.emailVerified.getD u.emailVerified,
    isActive := dto.isActive.getD u.isActive }

/-- prisma.user.findUnique with a where clause on id: the row with that id,
if any. -/
def Store.userFindUnique (s : Store) (id : String) : Option User :=
  s.users.find? (fun u => u.id == id)

/-- Unique-constraint condition hit when an update writes the email column:
some other row already holds the new email. -/
def Store.updateEmailTaken (s : Store) (id : String) (dto : UpdateUserDto) : Bool :=
  match dto.email with
  | none => false
  | some e => s.users.any (fun v => v.id != id && v.email == e)

/-- prisma.user.update with a where clause on id and an UpdateUserDto data
object: P2025 if the row is missing, P2002 if the written email collides
with another row, otherwise the row is rewritten with updatedAt set to the
current time (the schema's updatedAt attribute). -/
def Store.userUpdate (s : Store) (id : String) (dto : UpdateUserDto) (now : Nat) :
    Except StoreError (User × Store) :=
  match s.users.find? (fun u => u.id == id) with
  | none => Except.error StoreError.recordNotFound
  | some u =>
    if s.updateEmailTaken id dto then Except.error StoreError.uniqueViolation
    else
      let u2 := { applyUpdate dto u with updatedAt := now }
      Except.ok (u2, { s with users := s.users.map (fun v => if v.id == id then u2 else v) })

/-- prisma.user.create with a full data row: P2002 if the email or the id is
already taken, otherwise the row is appended to the table. -/
def Store.userCreate (s : Store) (row : User) : Except StoreError (User × Store) :=
  if s.users.any (fun u => u.email == row.email) then Except.error StoreError.uniqueViolation
  else if s.users.any (fun u => u.id == row.id) then Except.error StoreError.uniqueViolation
  else Except.ok (row, { s with users := s.users ++ [row] })

/-- Ordering used by findAll: createdAt descending, newest first. -/
def createdDesc (a b : User) : Prop := b.createdAt ≤ a.createdAt

instance : DecidableRel createdDesc := fun a b => Nat.decLe b.createdAt a.createdAt

instance : IsTotal User createdDesc := ⟨fun a b => Nat.le_total b.createdAt a.createdAt⟩

instance : IsTrans User createdDesc := ⟨fun _ _ _ h1 h2 => Nat.le_trans h2 h1⟩

/-- UsersService.create: spreads the dto into the data object and then
overrides emailVerified with false and isActive with true (the explicit
keys come after the spread, so dto-supplied values for these two fields are
accepted but overridden); id and timestamps are store-generated and passed
in here. -/
def UsersService.create (s : Store) (dto : CreateUserDto) (newId : String) (now : Nat) :
    Except ServiceError (User × Store) :=
  (s.userCreate
    { id := newId, name := dto.name, email := dto.email,
      emailVerified := false, isActive := true,
      createdAt := now, updatedAt := now, image := none }).mapError ServiceError.store

/-- UsersService.findAll: findMany with a where clause on isActive and
createdAt-descending order — active users only, newest first. -/
def UsersService.findAll (s : Store) : List User :=
  List.insertionSort createdDesc (s.users.filter (fun u => u.isActive))

/-- UsersService.findOne: findUnique by id, with no activity filter. -/
def UsersService.findOne (s : Store) (id : String) : Option User :=
  s.userFindUnique id

/-- UsersService.update: a direct prisma update; store errors are propagated
unchanged because the service has no try/catch. -/
def UsersService.update (s : Store) (id : String) (dto : UpdateUserDto) (now : Nat) :
    Except ServiceError (User × Store) :=
  (s.userUpdate id dto now).mapError ServiceError.store

/-- UsersService.remove: soft delete, a prisma update setting isActive to
false; the service discards the returned row. -/
def UsersService.remove (s : Store) (id : String) (now : Nat) :
    Except ServiceError Store :=
  ((s.userUpdate id { isActive := some false } now).map Prod.snd).mapError ServiceError.store

/-- Error raised by an external collaborator (the Auth Provider's resolver
or the Session Store client) during a lookup; the guard's catch-all absorbs
it. -/
inductive ExtError where
  | failure
deriving DecidableEq

/-- The session object inside the Auth Provider's resolver result; the guard
reads only userId. -/
structure SessionData where
  id : String
  userId : String
  token : String
  expiresAt : Nat
deriving DecidableEq

/-- The user object inside the Auth Provider's resolver result, attached to
the request on success. -/
structure AuthUser where
  id : String
  email : String
deriving DecidableEq

/-- Shape of the auth.api.getSession result: a nullable object carrying
nullable session and user components — the guard's check tests only the
session component. -/
structure GetSessionResult where
  session : Option SessionData
  user : Option AuthUser
deriving DecidableEq

/-- Anything thrown inside the guard's try block: one of the guard's own
UnauthorizedExceptions, or an error from an external lookup. -/
inductive Thrown where
  | unauthorized (message : String)
  | external (e : ExtError)
deriving DecidableEq

/-- Outcome of AuthGuard.canActivate as the framework sees it: either the
request proceeds with the resolver's user object and session attached, or
an UnauthorizedException with the given message is raised and the handler
is not invoked. -/
inductive GuardOutcome where
  | allow (user : Option AuthUser) (session : SessionData)
  | reject (message : String)
deriving DecidableEq

/-- A guard evaluation paired with whether the USER_LOOKUP step
(prisma.user.findUnique) was executed during it. -/
structure GuardRun where
  outcome : GuardOutcome
  userLookupRan : Bool
deriving DecidableEq

/-- Body of the guard's try block: resolve the session from the request
headers, check the session component, load the user row by the session's
userId, check existence and isActive, and produce the attached identity.
The second component records whether the user lookup was executed. -/
def AuthGuard.tryBody
    (getSession : Except ExtError (Option GetSessionResult))
    (findUnique : String → Except ExtError (Option User)) :
    Except Thrown (Option AuthUser × SessionData) × Bool :=
  match getSession with
  | Except.error e => (Except.error (Thrown.external e), false)
  | Except.ok none => (Except.error (Thrown.unauthorized msgInvalidSession), false)
  | Except.ok (some r) =>
    match r.session with
    | none => (Except.error (Thrown.unauthorized msgInvalidSession), false)
    | some sd =>
      match findUnique sd.userId with
      | Except.error e => (Except.error (Thrown.external e), true)
      | Except.ok none => (Except.error (Thrown.unauthorized msgUserInactive), true)
      | Except.ok (some u) =>
        if u.isActive then (Except.ok (r.user, sd), true)
        else (Except.error (Thrown.unauthorized msgUserInactive), true)

/-- AuthGuard.canActivate: run the try block; any throw is caught and
replaced by one uniform UnauthorizedException, any success allows the
request with user and session attached. -/
def AuthGuard.canActivateRun
    (getSession : Except ExtError (Option GetSessionResult))
    (findUnique : String → Except ExtError (Option User)) : GuardRun :=
  match AuthGuard.tryBody getSession findUnique with
  | (Except.error _, ran) => { outcome := GuardOutcome.reject msgAuthFailed, userLookupRan := ran }
  | (Except.ok (u, sd), ran) => { outcome := GuardOutcome.allow u sd, userLookupRan := ran }

/-- The framework invokes a guarded handler exactly when canActivate
returned true; a thrown UnauthorizedException prevents the handler. -/
def handlerExecutes (run : GuardRun) : Bool :=
  match run.outcome with
  | GuardOutcome.allow _ _ => true
  | GuardOutcome.reject _ => false

/-- The store's findUnique as the guard calls it, when the store client does
not error. -/
def Store.findUniqueExc (s : Store) : String → Except ExtError (Option User) :=
  fun id => Except.ok (s.userFindUnique id)

/-- Failure produced by a structured body parser. -/
inductive ParseError where
  | malformedBody
  | entityTooLarge
deriving DecidableEq

/-- One invocation of a structured body parser, with its size cap. -/
inductive ParserInvocation where
  | json (limit : String)
  | urlencoded (limit : String)
deriving DecidableEq

/-- The part of the express request the middleware reads and writes. -/
structure MwRequest where
  baseUrl : Option String
  url : Option String
  rawBody : String
  parsedBody : Option String
deriving DecidableEq

/-- How the middleware hands the request onward: next with the (possibly
mutated) request, or next with a parse error that short-circuits it. -/
inductive MwResult where
  | next (req : MwRequest)
  | nextError (e : ParseError) (req : MwRequest)
deriving DecidableEq

/-- Prefix test on strings, written over the character lists so that it
evaluates inside the kernel. -/
def strStartsWith (s pre : String) : Bool :=
  List.isPrefixOf pre.data s.data

/-- The middleware's auth-route test: baseUrl or url starts with the Better
Auth path. -/
def isAuthRoute (req : MwRequest) : Bool :=
  (match req.baseUrl with
   | some b => strStartsWith b authRoutePath
   | none => false) ||
  (match req.url with
   | some u => strStartsWith u authRoutePath
   | none => false)

/-- RawBodyMiddleware.use: on an auth route, call next with the request
untouched and invoke no parser; otherwise run the json parser (5mb cap),
short-circuit on its error, then run the urlencoded parser (5mb cap). The
second component records the parser invocations, newest last. -/
def RawBodyMiddleware.use
    (jsonP : MwRequest → Except ParseError MwRequest)
    (urlP : MwRequest → Except ParseError MwRequest)
    (req : MwRequest) : MwResult × List ParserInvocation :=
  if isAuthRoute req then (MwResult.next req, [])
  else
    match jsonP req with
    | Except.error e => (MwResult.nextError e req, [ParserInvocation.json bodyLimit])
    | Except.ok req1 =>
      match urlP req1 with
      | Except.error e =>
        (MwResult.nextError e req1,
         [ParserInvocation.json bodyLimit, ParserInvocation.urlencoded bodyLimit])
      | Except.ok req2 =>
        (MwResult.next req2,
         [ParserInvocation.json bodyLimit, ParserInvocation.urlencoded bodyLimit])

/-- The non-auth HTTP routes of AppController and UsersController. -/
inductive Route where
  | getRoot
  | getHealth
  | getUsers
  | getUsersMe
  | getUsersId
  | postUsers
  | patchUsersId
  | deleteUsersId
deriving DecidableEq

/-- Whether the route's handler carries the UseGuards(AuthGuard) decorator
in its controller: true for every users route except the POST, false for
POST /users and for both AppController routes. -/
def routeGuarded : Route → Bool
  | Route.getRoot => false
  | Route.getHealth => false
  | Route.getUsers => true
  | Route.getUsersMe => true
  | Route.getUsersId => true
  | Route.postUsers => false
  | Route.patchUsersId => true
  | Route.deleteUsersId => true

/-- Concrete ids and emails used by the evaluation fixtures below. -/
def uidMissing : String := "zzz"

/-- A fresh id handed to a concrete create call. -/
def newId9 : String := "u9"

/-- An UpdateUserDto with every field absent. -/
def dtoEmptyU : UpdateUserDto := {}

/-- An active seeded user. -/
def userA : User :=
  { id := "u1", name := none, email := "a@x.com", emailVerified := false,
    isActive := true, createdAt := 10, updatedAt := 10, image := none }

/-- An inactive (soft-deleted) seeded user. -/
def userB : User :=
  { id := "u2", name := none, email := "b@x.com", emailVerified := true,
    isActive := false, createdAt := 20, updatedAt := 20, image := none }

/-- An empty Session Store. -/
def storeEmpty : Store := { users := [], sessions := [], accounts := [] }

/-- A store seeded with one active user. -/
def storeA : Store := { users := [userA], sessions := [], accounts := [] }

/-- A store seeded with one inactive user. -/
def storeB : Store := { users := [userB], sessions := [], accounts := [] }

/-- A session belonging to the active user. -/
def sdA : SessionData := { id := "s1", userId := "u1", token := "t1", expiresAt := 999 }

/-- A session belonging to the inactive user. -/
def sdB : SessionData := { id := "s2", userId := "u2", token := "t2", expiresAt := 999 }

/-- A resolver result carrying a session but no user component. -/
def resNoUser : GetSessionResult := { session := some sdA, user := none }

/-- The resolver's user object for the inactive user. -/
def auB : AuthUser := { id := "u2", email := "b@x.com" }

/-- A full resolver result for the inactive user. -/
def resB : GetSessionResult := { session := some sdB, user := some auB }

/-- A create dto whose email collides with the seeded active user. -/
def dtoDup : CreateUserDto := { email := "a@x.com" }

/-- A create dto that supplies emailVerified and isActive values opposite to
the service's defaults. -/
def dtoOverride : CreateUserDto :=
  { email := "c@x.com", emailVerified := some true, isActive := some false }

/-- A partial update touching only the name field. -/
def dtoNamePatch : UpdateUserDto := { name := some "Renamed" }

/-- A request aimed at a Better Auth route. -/
def reqAuth : MwRequest :=
  { baseUrl := some "/api/auth", url := some "/api/auth/sign-in/email",
    rawBody := "raw", parsedBody := none }

/-- A request aimed at a non-auth route. -/
def reqUsers : MwRequest :=
  { baseUrl := some "/api/users", url := some "/api/users",
    rawBody := "body", parsedBody := none }

/-- A body parser that accepts any request unchanged. -/
def parseId : MwRequest → Except ParseError MwRequest := fun r => Except.ok r

/-- The row UsersService.create hands to the store for a given dto, id and
time: the dto spread with emailVerified and isActive overridden. -/
def createdRow (dto : CreateUserDto) (newId : String) (now : Nat) : User :=
  { id := newId, name := dto.name, email := dto.email, emailVerified := false,
    isActive := true, createdAt := now, updatedAt := now, image := none }

/-- Every rejection the guard produces carries the single catch-all message:
the inner throw messages never escape the try block. -/
theorem guard_reject_msg
    (gs : Except ExtError (Option GetSessionResult))
    (fu : String → Except ExtError (Option User)) (m : String)
    (h : (AuthGuard.canActivateRun gs fu).outcome = GuardOutcome.reject m) :
    m = msgAuthFailed := by
  unfold AuthGuard.canActivateRun at h
  rcases htb : AuthGuard.tryBody gs fu with ⟨e | p, ran⟩
  · rw [htb] at h
    simp only [GuardRun.mk.injEq] at h
    exact (GuardOutcome.reject.inj h).symm
  · rcases p with ⟨au, sd⟩
    rw [htb] at h
    simp at h

/-- C1: for every request to a guarded endpoint whose session resolves to a
user id for which the Session Store has no User row, or only rows with
isActive false, the Auth Guard rejects with the uniform authentication
failure and the protected handler never executes. -/
theorem C1_guard_rejects_missing_or_inactive_user
    (s : Store) (r : GetSessionResult) (sd : SessionData)
    (hs : r.session = some sd)
    (hvio : ∀ u ∈ s.users, u.id = sd.userId → u.isActive = false) :
    (AuthGuard.canActivateRun (Except.ok (some r)) s.findUniqueExc).outcome =
      GuardOutcome.reject msgAuthFailed ∧
    handlerExecutes (AuthGuard.canActivateRun (Except.ok (some r)) s.findUniqueExc) = false := by
  have hrun : AuthGuard.canActivateRun (Except.ok (some r)) s.findUniqueExc =
      { outcome := GuardOutcome.reject msgAuthFailed, userLookupRan := true } := by
    cases hfu : s.users.find? (fun u => u.id == sd.userId) with
    | none =>
      simp [AuthGuard.canActivateRun, AuthGuard.tryBody, Store.findUniqueExc,
        Store.userFindUnique, hs, hfu]
    | some u =>
      have hua : u.isActive = false :=
        hvio u (List.mem_of_find?_eq_some hfu) (by simpa using List.find?_some hfu)
      simp [AuthGuard.canActivateRun, AuthGuard.tryBody, Store.findUniqueExc,
        Store.userFindUnique, hs, hfu, hua]
  rw [hrun]
  exact ⟨rfl, rfl⟩

/-- C1 witness: the guard run over a store seeded with one inactive user and
a resolver result whose session points at that user. -/
theorem C1_guard_rejects_missing_or_inactive_user_witness :
    resB.session = some sdB ∧
    (∀ u ∈ storeB.users, u.id = sdB.userId → u.isActive = false) ∧
    ((AuthGuard.canActivateRun (Except.ok (some resB)) storeB.findUniqueExc).outcome =
        GuardOutcome.reject msgAuthFailed ∧
      handlerExecutes (AuthGuard.canActivateRun (Except.ok (some resB)) storeB.findUniqueExc) =
        false) :=
  ⟨rfl, by decide,
    C1_guard_rejects_missing_or_inactive_user storeB resB sdB rfl (by decide)⟩

/-- C2 counterexample: a resolver result that carries a session but no user
component is not rejected at SESSION_LOOKUP — the guard proceeds to
USER_LOOKUP and, over a store holding an active user with the session's
user id, even allows the request (attaching no user object). -/
theorem C2_session_lookup_counterexample :
    resNoUser.user = none ∧
    AuthGuard.canActivateRun (Except.ok (some resNoUser)) storeA.findUniqueExc =
      { outcome := GuardOutcome.allow none sdA, userLookupRan := true } := by
  constructor
  · rfl
  · decide

/-- C2 amended: at SESSION_LOOKUP the guard checks only the session
component — when the resolver returns null or a result whose session is
missing, it rejects with the uniform authentication failure before the
USER_LOOKUP step; a result with a session but no user is not rejected
there. -/
theorem C2_session_lookup_rejects_missing_session
    (gs : Except ExtError (Option GetSessionResult))
    (fu : String → Except ExtError (Option User))
    (h : gs = Except.ok none ∨ ∃ r, gs = Except.ok (some r) ∧ r.session = none) :
    AuthGuard.canActivateRun gs fu =
      { outcome := GuardOutcome.reject msgAuthFailed, userLookupRan := false } := by
  rcases h with rfl | ⟨r, rfl, hr⟩
  · rfl
  · simp [AuthGuard.canActivateRun, AuthGuard.tryBody, hr]

/-- C2 witness: the null resolver result is rejected before USER_LOOKUP. -/
theorem C2_session_lookup_rejects_missing_session_witness :
    ((Except.ok none : Except ExtError (Option GetSessionResult)) = Except.ok none ∨
      ∃ r, (Except.ok none : Except ExtError (Option GetSessionResult)) = Except.ok (some r) ∧
        r.session = none) ∧
    AuthGuard.canActivateRun (Except.ok none) storeA.findUniqueExc =
      { outcome := GuardOutcome.reject msgAuthFailed, userLookupRan := false } :=
  ⟨Or.inl rfl,
    C2_session_lookup_rejects_missing_session (Except.ok none) storeA.findUniqueExc (Or.inl rfl)⟩

/-- C3: any two rejected guard runs — whatever failed: resolver error, null
session, missing user row, inactive user, or a store error during the
lookup — surface the same rejection kind with the same message. -/
theorem C3_uniform_rejection
    (g1 g2 : Except ExtError (Option GetSessionResult))
    (f1 f2 : String → Except ExtError (Option User))
    (m1 m2 : String)
    (h1 : (AuthGuard.canActivateRun g1 f1).outcome = GuardOutcome.reject m1)
    (h2 : (AuthGuard.canActivateRun g2 f2).outcome = GuardOutcome.reject m2) :
    m1 = m2 :=
  (guard_reject_msg g1 f1 m1 h1).trans (guard_reject_msg g2 f2 m2 h2).symm

/-- C3 witness: a resolver failure and an inactive-user failure produce
identical messages. -/
theorem C3_uniform_rejection_witness :
    (AuthGuard.canActivateRun (Except.error ExtError.failure) storeA.findUniqueExc).outcome =
      GuardOutcome.reject msgAuthFailed ∧
    (AuthGuard.canActivateRun (Except.ok (some resB)) storeB.findUniqueExc).outcome =
      GuardOutcome.reject msgAuthFailed ∧
    msgAuthFailed = msgAuthFailed :=
  ⟨by decide, by decide,
    C3_uniform_rejection (Except.error ExtError.failure) (Except.ok (some resB))
      storeA.findUniqueExc storeB.findUniqueExc msgAuthFailed msgAuthFailed
      (by decide) (by decide)⟩

/-- C5: a request whose path starts with the auth route path passes through
the Body-Routing Middleware unmodified with no structured parser invoked;
any other request is parsed as JSON (5mb cap) and then, when the JSON
parser succeeds, as URL-encoded form data (5mb cap). -/
theorem C5_body_routing
    (jsonP urlP : MwRequest → Except ParseError MwRequest) (req : MwRequest) :
    (isAuthRoute req = true →
      RawBodyMiddleware.use jsonP urlP req = (MwResult.next req, [])) ∧
    (isAuthRoute req = false →
      (∃ l, (RawBodyMiddleware.use jsonP urlP req).2 = ParserInvocation.json bodyLimit :: l) ∧
      ∀ req1, jsonP req = Except.ok req1 →
        (RawBodyMiddleware.use jsonP urlP req).2 =
          [ParserInvocation.json bodyLimit, ParserInvocation.urlencoded bodyLimit]) := by
  constructor
  · intro h
    simp [RawBodyMiddleware.use, h]
  · intro h
    constructor
    · cases hj : jsonP req with
      | error e => exact ⟨[], by simp [RawBodyMiddleware.use, h, hj]⟩
      | ok r1 =>
        cases hu : urlP r1 with
        | error e =>
          exact ⟨[ParserInvocation.urlencoded bodyLimit],
            by simp [RawBodyMiddleware.use, h, hj, hu]⟩
        | ok r2 =>
          exact ⟨[ParserInvocation.urlencoded bodyLimit],
            by simp [RawBodyMiddleware.use, h, hj, hu]⟩
    · intro r1 hj
      cases hu : urlP r1 with
      | error e => simp [RawBodyMiddleware.use, h, hj, hu]
      | ok r2 => simp [RawBodyMiddleware.use, h, hj, hu]

/-- C5 witness: an auth request passes through untouched with no parser
invoked; a users request with succeeding parsers records both parser
invocations. -/
theorem C5_body_routing_witness :
    (isAuthRoute reqAuth = true ∧
      RawBodyMiddleware.use parseId parseId reqAuth = (MwResult.next reqAuth, [])) ∧
    (isAuthRoute reqUsers = false ∧
      (RawBodyMiddleware.use parseId parseId reqUsers).2 =
        [ParserInvocation.json bodyLimit, ParserInvocation.urlencoded bodyLimit]) :=
  ⟨⟨by decide, (C5_body_routing parseId parseId reqAuth).1 (by decide)⟩,
    ⟨by decide,
      ((C5_body_routing parseId parseId reqUsers).2 (by decide)).2 reqUsers rfl⟩⟩

/-- Rewriting every row carrying the searched id to a row that still
carries it keeps find? returning that replacement, provided some row
matched before the rewrite. -/
theorem find?_map_if (l : List User) (id : String) (u2 : User)
    (h2 : (u2.id == id) = true)
    (hex : ∃ x ∈ l, (x.id == id) = true) :
    (l.map (fun v => if v.id == id then u2 else v)).find? (fun x => x.id == id) = some u2 := by
  induction l with
  | nil =>
    rcases hex with ⟨x, hx, _⟩
    cases hx
  | cons v t ih =>
    cases hv : (v.id == id) with
    | true =>
      simp only [List.map_cons, if_pos hv]
      exact List.find?_cons_of_pos _ h2
    | false =>
      have hvn : ¬((v.id == id) = true) := by simp [hv]
      simp only [List.map_cons, if_neg hvn]
      have hstep :
          (v :: (t.map (fun w => if w.id == id then u2 else w))).find?
              (fun x => x.id == id) =
            (t.map (fun w => if w.id == id then u2 else w)).find?
              (fun x => x.id == id) := by
        simp only [List.find?]
        rw [hv]
      rw [hstep]
      apply ih
      rcases hex with ⟨x, hx, hxp⟩
      rcases List.mem_cons.mp hx with rfl | hxt
      · exact absurd hxp hvn
      · exact ⟨x, hxt, hxp⟩

/-- After the soft-delete rewrite, every row carrying the removed id is
inactive. -/
theorem map_if_inactive (l : List User) (id : String) (u2 : User)
    (h2 : u2.isActive = false) :
    ∀ x ∈ l.map (fun v => if v.id == id then u2 else v), x.id = id → x.isActive = false := by
  intro x hx hid
  rcases List.mem_map.mp hx with ⟨v, hv, rfl⟩
  cases hvb : (v.id == id) with
  | true => simpa [if_pos hvb] using h2
  | false =>
    have hvn : ¬((v.id == id) = true) := by simp [hvb]
    rw [if_neg hvn] at hid
    exact absurd hid (by simpa using hvb)

/-- Soft remove over a store that holds the id: the call succeeds and
rewrites exactly the matching rows to their deactivated form. -/
theorem remove_eq (s : Store) (id : String) (now : Nat) (u : User)
    (hf : s.users.find? (fun x => x.id == id) = some u) :
    UsersService.remove s id now = Except.ok
      { s with users := s.users.map (fun v => if v.id == id then
          { u with isActive := false, updatedAt := now } else v) } := by
  unfold UsersService.remove Store.userUpdate
  rw [hf]
  rfl

/-- C4 counterexample: an update or remove on a missing id and a create on
a taken email surface the store's own errors (P2025 / P2002) propagated
unchanged, not HTTP NotFound / Conflict failure kinds. -/
theorem C4_error_kinds_counterexample :
    UsersService.update storeEmpty uidMissing dtoEmptyU 0 =
      Except.error (ServiceError.store StoreError.recordNotFound) ∧
    ¬ UsersService.update storeEmpty uidMissing dtoEmptyU 0 =
      Except.error (ServiceError.http FailureKind.notFound) ∧
    UsersService.remove storeEmpty uidMissing 0 =
      Except.error (ServiceError.store StoreError.recordNotFound) ∧
    ¬ UsersService.remove storeEmpty uidMissing 0 =
      Except.error (ServiceError.http FailureKind.notFound) ∧
    UsersService.create storeA dtoDup newId9 0 =
      Except.error (ServiceError.store StoreError.uniqueViolation) ∧
    ¬ UsersService.create storeA dtoDup newId9 0 =
      Except.error (ServiceError.http FailureKind.conflict) := by
  decide

/-- C4 amended: update and remove of a missing id surface the store's
record-not-found error and create with a taken email surfaces the store's
unique-constraint error, each propagated unchanged as a store error (the
service maps nothing to the NotFound / Conflict taxonomy); the two store
error kinds are distinct from each other. -/
theorem C4_error_kinds_from_store :
    (∀ (s : Store) (id : String) (dto : UpdateUserDto) (now : Nat),
      s.users.find? (fun x => x.id == id) = none →
      UsersService.update s id dto now =
        Except.error (ServiceError.store StoreError.recordNotFound) ∧
      UsersService.remove s id now =
        Except.error (ServiceError.store StoreError.recordNotFound)) ∧
    (∀ (s : Store) (dto : CreateUserDto) (newId : String) (now : Nat),
      s.users.any (fun x => x.email == dto.email) = true →
      UsersService.create s dto newId now =
        Except.error (ServiceError.store StoreError.uniqueViolation)) ∧
    StoreError.recordNotFound ≠ StoreError.uniqueViolation := by
  refine ⟨?_, ?_, by decide⟩
  · intro s id dto now hf
    constructor
    · simp [UsersService.update, Store.userUpdate, hf, Except.mapError]
    · simp [UsersService.remove, Store.userUpdate, hf, Except.mapError, Except.map]
  · intro s dto newId now he
    simp [UsersService.create, Store.userCreate, createdRow, he, Except.mapError]

/-- C4 witness: the amended statement evaluated on an empty store, a store
with a colliding email, and concrete inputs. -/
theorem C4_error_kinds_from_store_witness :
    storeEmpty.users.find? (fun x => x.id == uidMissing) = none ∧
    (UsersService.update storeEmpty uidMissing dtoEmptyU 7 =
        Except.error (ServiceError.store StoreError.recordNotFound) ∧
      UsersService.remove storeEmpty uidMissing 7 =
        Except.error (ServiceError.store StoreError.recordNotFound)) ∧
    storeA.users.any (fun x => x.email == dtoDup.email) = true ∧
    UsersService.create storeA dtoDup newId9 7 =
      Except.error (ServiceError.store StoreError.uniqueViolation) :=
  ⟨by decide, C4_error_kinds_from_store.1 storeEmpty uidMissing dtoEmptyU 7 (by decide),
    by decide, C4_error_kinds_from_store.2.1 storeA dtoDup newId9 7 (by decide)⟩

/-- C6 counterexample: GET / is a non-auth route other than POST /users and
it does not carry the Auth Guard. -/
theorem C6_routes_counterexample :
    routeGuarded Route.getRoot = false ∧ Route.getRoot ≠ Route.postUsers := by
  decide

/-- C6 amended: among the non-auth routes, exactly the users routes other
than POST /users are gated by the Auth Guard; POST /users, GET / and
GET /health are reachable without a session. -/
theorem C6_routes_guard_table :
    routeGuarded Route.getUsers = true ∧ routeGuarded Route.getUsersMe = true ∧
    routeGuarded Route.getUsersId = true ∧ routeGuarded Route.patchUsersId = true ∧
    routeGuarded Route.deleteUsersId = true ∧ routeGuarded Route.postUsers = false ∧
    routeGuarded Route.getRoot = false ∧ routeGuarded Route.getHealth = false := by
  decide

/-- C7: findAll returns exactly the active users of the table (a
permutation of its isActive filter), sorted newest first by createdAt; no
inactive user ever appears in the result. -/
theorem C7_findAll_active_newest_first (s : Store) :
    List.Perm (UsersService.findAll s) (s.users.filter (fun u => u.isActive)) ∧
    List.Sorted createdDesc (UsersService.findAll s) ∧
    ∀ u ∈ UsersService.findAll s, u.isActive = true := by
  refine ⟨List.perm_insertionSort createdDesc _, List.sorted_insertionSort createdDesc _, ?_⟩
  intro u hu
  have hm : u ∈ s.users.filter (fun x => x.isActive) :=
    (List.perm_insertionSort createdDesc _).mem_iff.mp hu
  exact (List.mem_filter.mp hm).2

/-- C8: soft remove is idempotent — on a store holding the id, both calls
succeed, every row with the id is inactive after each call, and neither
call touches the sessions or accounts tables. -/
theorem C8_remove_idempotent (s : Store) (id : String) (n1 n2 : Nat)
    (h : s.users.any (fun u => u.id == id) = true) :
    ∃ s1 s2,
      UsersService.remove s id n1 = Except.ok s1 ∧
      (∀ u ∈ s1.users, u.id = id → u.isActive = false) ∧
      UsersService.remove s1 id n2 = Except.ok s2 ∧
      (∀ u ∈ s2.users, u.id = id → u.isActive = false) ∧
      s1.sessions = s.sessions ∧ s1.accounts = s.accounts ∧
      s2.sessions = s.sessions ∧ s2.accounts = s.accounts := by
  have hex : ∃ x ∈ s.users, (x.id == id) = true := List.any_eq_true.mp h
  have hsome : (s.users.find? (fun x => x.id == id)).isSome := List.find?_isSome.mpr hex
  obtain ⟨w, hw⟩ := Option.isSome_iff_exists.mp hsome
  have hwp0 := List.find?_some hw
  have hwp : (w.id == id) = true := hwp0
  refine ⟨_, _, remove_eq s id n1 w hw,
    map_if_inactive s.users id { w with isActive := false, updatedAt := n1 } rfl,
    remove_eq _ id n2 { w with isActive := false, updatedAt := n1 }
      (find?_map_if s.users id { w with isActive := false, updatedAt := n1 } hwp hex),
    ?_, rfl, rfl, rfl, rfl⟩
  exact map_if_inactive _ id _ rfl

/-- C8 witness: removing the seeded active user twice from its store. -/
theorem C8_remove_idempotent_witness :
    storeA.users.any (fun u => u.id == userA.id) = true ∧
    ∃ s1 s2,
      UsersService.remove storeA userA.id 30 = Except.ok s1 ∧
      (∀ u ∈ s1.users, u.id = userA.id → u.isActive = false) ∧
      UsersService.remove s1 userA.id 40 = Except.ok s2 ∧
      (∀ u ∈ s2.users, u.id = userA.id → u.isActive = false) ∧
      s1.sessions = storeA.sessions ∧ s1.accounts = storeA.accounts ∧
      s2.sessions = storeA.sessions ∧ s2.accounts = storeA.accounts :=
  ⟨by decide, C8_remove_idempotent storeA userA.id 30 40 (by decide)⟩

/-- C9: create with a fresh email and id succeeds and the stored row has
emailVerified false and isActive true, whatever values the dto supplied
for those fields. -/
theorem C9_create_defaults (s : Store) (dto : CreateUserDto) (newId : String) (now : Nat)
    (hEmail : s.users.any (fun u => u.email == dto.email) = false)
    (hId : s.users.any (fun u => u.id == newId) = false) :
    ∃ st, UsersService.create s dto newId now = Except.ok (createdRow dto newId now, st) ∧
      (createdRow dto newId now).emailVerified = false ∧
      (createdRow dto newId now).isActive = true := by
  refine ⟨{ s with users := s.users ++ [createdRow dto newId now] }, ?_, rfl, rfl⟩
  simp [UsersService.create, Store.userCreate, createdRow, hEmail, hId, Except.mapError]

/-- C9 witness: a dto that supplies emailVerified true and isActive false
is still stored with the service's defaults. -/
theorem C9_create_defaults_witness :
    storeEmpty.users.any (fun u => u.email == dtoOverride.email) = false ∧
    storeEmpty.users.any (fun u => u.id == newId9) = false ∧
    dtoOverride.emailVerified = some true ∧
    dtoOverride.isActive = some false ∧
    ∃ st, UsersService.create storeEmpty dtoOverride newId9 50 =
        Except.ok (createdRow dtoOverride newId9 50, st) ∧
      (createdRow dtoOverride newId9 50).emailVerified = false ∧
      (createdRow dtoOverride newId9 50).isActive = true :=
  ⟨by decide, by decide, by decide, by decide,
    C9_create_defaults storeEmpty dtoOverride newId9 50 (by decide) (by decide)⟩

/-- C10: a successful update of an existing id rewrites only the fields the
dto carries, sets updatedAt, leaves id, createdAt, image and every absent
field unchanged, and leaves every row with a different id untouched, along
with the sessions and accounts tables. -/
theorem C10_update_frame (s : Store) (id : String) (dto : UpdateUserDto) (now : Nat) (u : User)
    (hf : s.users.find? (fun x => x.id == id) = some u)
    (hc : s.updateEmailTaken id dto = false) :
    ∃ u2 st,
      UsersService.update s id dto now = Except.ok (u2, st) ∧
      u2.id = u.id ∧ u2.createdAt = u.createdAt ∧ u2.updatedAt = now ∧ u2.image = u.image ∧
      (dto.name = none → u2.name = u.name) ∧
      (∀ n, dto.name = some n → u2.name = some n) ∧
      (dto.email = none → u2.email = u.email) ∧
      (∀ e, dto.email = some e → u2.email = e) ∧
      (dto.emailVerified = none → u2.emailVerified = u.emailVerified) ∧
      (∀ b, dto.emailVerified = some b → u2.emailVerified = b) ∧
      (dto.isActive = none → u2.isActive = u.isActive) ∧
      (∀ b, dto.isActive = some b → u2.isActive = b) ∧
      List.Forall₂ (fun vOld vNew => (vOld.id = id ∧ vNew = u2) ∨ (vOld.id ≠ id ∧ vNew = vOld))
        s.users st.users ∧
      st.sessions = s.sessions ∧ st.accounts = s.accounts := by
  refine ⟨{ applyUpdate dto u with updatedAt := now },
    { s with users := s.users.map (fun v => if v.id == id then
        { applyUpdate dto u with updatedAt := now } else v) },
    ?_, ?_, ?_, rfl, ?_, ?_, ?_, ?_, ?_, ?_, ?_, ?_, ?_, ?_, rfl, rfl⟩
  · simp [UsersService.update, Store.userUpdate, hf, hc, Except.mapError]
  · simp [applyUpdate]
  · simp [applyUpdate]
  · simp [applyUpdate]
  · intro hn
    simp [applyUpdate, hn]
  · intro n hn
    simp [applyUpdate, hn]
  · intro hn
    simp [applyUpdate, hn]
  · intro e he
    simp [applyUpdate, he]
  · intro hn
    simp [applyUpdate, hn]
  · intro b hb
    simp [applyUpdate, hb]
  · intro hn
    simp [applyUpdate, hn]
  · intro b hb
    simp [applyUpdate, hb]
  · rw [List.forall₂_map_right_iff, List.forall₂_same]
    intro x hx
    cases hb : (x.id == id) with
    | true =>
      left
      exact ⟨by simpa using hb, by simp⟩
    | false =>
      right
      exact ⟨by simpa using hb, by simp⟩

/-- C10 witness: patching only the name of the seeded active user. -/
theorem C10_update_frame_witness :
    storeA.users.find? (fun x => x.id == userA.id) = some userA ∧
    storeA.updateEmailTaken userA.id dtoNamePatch = false ∧
    ∃ u2 st,
      UsersService.update storeA userA.id dtoNamePatch 60 = Except.ok (u2, st) ∧
      u2.id = userA.id ∧ u2.createdAt = userA.createdAt ∧ u2.updatedAt = 60 ∧
      u2.image = userA.image ∧
      (dtoNamePatch.name = none → u2.name = userA.name) ∧
      (∀ n, dtoNamePatch.name = some n → u2.name = some n) ∧
      (dtoNamePatch.email = none → u2.email = userA.email) ∧
      (∀ e, dtoNamePatch.email = some e → u2.email = e) ∧
      (dtoNamePatch.emailVerified = none → u2.emailVerified = userA.emailVerified) ∧
      (∀ b, dtoNamePatch.emailVerified = some b → u2.emailVerified = b) ∧
      (dtoNamePatch.isActive = none → u2.isActive = userA.isActive) ∧
      (∀ b, dtoNamePatch.isActive = some b → u2.isActive = b) ∧
      List.Forall₂
        (fun vOld vNew => (vOld.id = userA.id ∧ vNew = u2) ∨ (vOld.id ≠ userA.id ∧ vNew = vOld))
        storeA.users st.users ∧
      st.sessions = storeA.sessions ∧ st.accounts = storeA.accounts :=
  ⟨by decide, by decide, C10_update_frame storeA userA.id dtoNamePatch 60 userA
    (by decide) (by decide)⟩

end Starter
